import Mathlib

/-!
# servitor: the service lifecycle of `launcher`

A shallow embedding of `include/servitor/servitor.hpp`.

* The three static members of `launcher` (`app_`, `status_`, `status_handle_`)
  become the fields of the record `launcher`; every member function becomes a
  function from `launcher` to `launcher`.
* What the process does to the outside world is written to a log, in program
  order: every `SetServiceStatus` call (with the record that was passed and the
  answer of the service manager), every call of an `application` callback, and
  the release of the application by `app_.reset()`.
* The service manager is a parameter: it decides the result of
  `RegisterServiceCtrlHandlerA` and of every `SetServiceStatus`.
* `DWORD` fields are natural numbers, and every operation that can leave the
  32-bit range is reduced modulo `2^32` explicitly.
* All `application` callbacks are `noexcept` and the Win32 functions are C
  functions, so the `catch(...)` blocks of `service_entry` and
  `service_control` are never entered and are not modelled.
-/

namespace servitor

/-! ## Constants of `winsvc.h` used by the source -/

/-- Value of `SERVICE_STOPPED` in the Windows SDK header `winsvc.h`. -/
def SERVICE_STOPPED : Nat := 1
/-- Value of `SERVICE_START_PENDING` in `winsvc.h`. -/
def SERVICE_START_PENDING : Nat := 2
/-- Value of `SERVICE_STOP_PENDING` in `winsvc.h`. -/
def SERVICE_STOP_PENDING : Nat := 3
/-- Value of `SERVICE_RUNNING` in `winsvc.h`. -/
def SERVICE_RUNNING : Nat := 4
/-- Value of `SERVICE_ACCEPT_STOP` in `winsvc.h`. -/
def SERVICE_ACCEPT_STOP : Nat := 1
/-- Value of `SERVICE_CONTROL_STOP` in `winsvc.h`. -/
def SERVICE_CONTROL_STOP : Nat := 1
/-- Value of `SERVICE_CONTROL_INTERROGATE` in `winsvc.h`. -/
def SERVICE_CONTROL_INTERROGATE : Nat := 4
/-- Value of `SERVICE_WIN32_OWN_PROCESS` in `winnt.h`. -/
def SERVICE_WIN32_OWN_PROCESS : Nat := 16

/-- Number of values of a 32-bit unsigned integer (`DWORD`, `uint32_t`). -/
def UINT32_SIZE : Nat := 4294967296

/-- The conversion `uint32_t(x)` of a signed 64-bit count: reduction modulo `2^32`. -/
def uint32_t (x : Int) : Nat := (x % 4294967296).toNat

/-- The pre-increment `++x` of a `DWORD`. -/
def dword_inc (x : Nat) : Nat := (x + 1) % UINT32_SIZE

/-! ## Data model -/

/-- The record `SERVICE_STATUS` of `winsvc.h`, fields in declaration order. -/
structure SERVICE_STATUS where
  dwServiceType : Nat
  dwCurrentState : Nat
  dwControlsAccepted : Nat
  dwWin32ExitCode : Nat
  dwServiceSpecificExitCode : Nat
  dwCheckPoint : Nat
  dwWaitHint : Nat
  deriving DecidableEq, Repr

/-- The observable behaviour of an object of class `application`: its constant
    accessors, and what its callbacks answer.  `starting_timeout` and
    `stopping_timeout` are the `count()` of the `std::chrono::milliseconds`
    value (a signed 64-bit integer). -/
structure application where
  title : String
  description : String
  command_line : String
  starting_timeout : Int
  stopping_timeout : Int
  initialize_returns : Bool
  run_returns : Bool
  deriving DecidableEq, Repr

/-- What the process does to the outside world. -/
inductive Event where
  /-- Call of `SetServiceStatus(status_handle_, &status_)`: the record passed, the answer. -/
  | publish (record : SERVICE_STATUS) (accepted : Bool)
  /-- Call of `app_->initialize()`. -/
  | init
  /-- Call of `app_->run()`. -/
  | run
  /-- Call of `app_->stop()`. -/
  | stop
  /-- Destruction of the owned application by `app_.reset()`. -/
  | release
  deriving DecidableEq, Repr

/-- The service manager as seen by the process: the handle returned by
    `RegisterServiceCtrlHandlerA` (`none` is `nullptr`), and the answer to the
    `n`-th call of `SetServiceStatus` (counted from 0) for the record passed. -/
structure Manager where
  register : Option Nat
  accepts : Nat → SERVICE_STATUS → Bool

/-- The static members of class `launcher`, and the log of events so far. -/
structure launcher where
  app_ : Option application
  status_ : SERVICE_STATUS
  status_handle_ : Option Nat
  log : List Event

/-- Appends an event to the log. -/
def log_event (e : Event) (s : launcher) : launcher :=
  { s with log := s.log ++ [e] }

/-- The status records passed to `SetServiceStatus`, in order. -/
def publications : List Event → List SERVICE_STATUS
  | [] => []
  | Event.publish r _ :: es => r :: publications es
  | _ :: es => publications es

/-- The pair (phase, checkpoint) of each published record, in order. -/
def phases (es : List Event) : List (Nat × Nat) :=
  (publications es).map (fun r => (r.dwCurrentState, r.dwCheckPoint))

/-- Number of occurrences of an event in a log. -/
def occurrences (e : Event) (es : List Event) : Nat := es.count e

/-! ## The status reporter -/

/-- The call `SetServiceStatus(status_handle_, &status_)`: the manager answers, and the
    publication is logged. -/
def SetServiceStatus (m : Manager) (s : launcher) : Bool × launcher :=
  let ok := m.accepts (publications s.log).length s.status_
  (ok, log_event (Event.publish s.status_ ok) s)

/-- The function `launcher::report_starting`. -/
def report_starting (m : Manager) (millis : Nat) (s : launcher) : Bool × launcher :=
  let s := { s with status_ := { s.status_ with dwCurrentState := SERVICE_START_PENDING } }
  let s := { s with status_ := { s.status_ with dwControlsAccepted := 0 } }
  let s := { s with status_ := { s.status_ with dwWaitHint := millis } }
  let s := { s with status_ := { s.status_ with dwCheckPoint := dword_inc s.status_.dwCheckPoint } }
  SetServiceStatus m s

/-- The function `launcher::report_running`. -/
def report_running (m : Manager) (s : launcher) : Bool × launcher :=
  let s := { s with status_ := { s.status_ with dwCurrentState := SERVICE_RUNNING } }
  let s := { s with status_ := { s.status_ with dwControlsAccepted := SERVICE_ACCEPT_STOP } }
  let s := { s with status_ := { s.status_ with dwCheckPoint := 0 } }
  SetServiceStatus m s

/-- The function `launcher::report_stopping`. -/
def report_stopping (m : Manager) (millis : Nat) (s : launcher) : Bool × launcher :=
  let s := { s with status_ := { s.status_ with dwCurrentState := SERVICE_STOP_PENDING } }
  let s := { s with status_ := { s.status_ with dwControlsAccepted := 0 } }
  let s := { s with status_ := { s.status_ with dwWaitHint := millis } }
  let s := { s with status_ := { s.status_ with dwCheckPoint := dword_inc s.status_.dwCheckPoint } }
  SetServiceStatus m s

/-- The statement `app_.reset()`: an owned application is destroyed, an empty slot
    stays empty. -/
def app_reset (s : launcher) : launcher :=
  match s.app_ with
  | none => s
  | some _ => log_event Event.release { s with app_ := none }

/-- The function `launcher::report_stopped`. -/
def report_stopped (m : Manager) (s : launcher) : Bool × launcher :=
  let s := app_reset s
  let s := { s with status_ := { s.status_ with dwCurrentState := SERVICE_STOPPED } }
  let s := { s with status_ := { s.status_ with dwControlsAccepted := 0 } }
  let s := { s with status_ := { s.status_ with dwCheckPoint := 0 } }
  SetServiceStatus m s

/-! ## The control dispatcher -/

/-- The function `launcher::service_control`. -/
def service_control (m : Manager) (command : Nat) (s : launcher) : launcher :=
  match s.app_ with
  | none => s
  | some app =>
    if command = SERVICE_CONTROL_STOP then
      let s := (report_stopping m (uint32_t app.stopping_timeout) s).2
      log_event Event.stop s
    else if command = SERVICE_CONTROL_INTERROGATE then
      let s :=
        if s.status_.dwCurrentState = SERVICE_START_PENDING
            ∨ s.status_.dwCurrentState = SERVICE_STOP_PENDING then
          { s with status_ := { s.status_ with dwCheckPoint := dword_inc s.status_.dwCheckPoint } }
        else s
      (SetServiceStatus m s).2
    else s

/-- Control commands handled one after the other, in the order of delivery. -/
def deliver (m : Manager) (commands : List Nat) (s : launcher) : launcher :=
  commands.foldl (fun st c => service_control m c st) s

/-! ## The lifecycle runner -/

/-- The control commands the manager delivers while the entry thread is inside a
    callback of the application: during `initialize()` and during `run()`.  Each
    command is handled to completion before the callback returns; the section on the
    two threads below looks at a handler that is overtaken by the entry thread. -/
structure Deliveries where
  while_initializing : List Nat
  while_running : List Nat

/-- The function `launcher::service_entry`.  `launcher::run` stores a non-null
    application before the dispatcher can call it; with an empty slot the first
    statement that dereferences `app_` has no defined behaviour and the model stops
    there. -/
def service_entry (m : Manager) (d : Deliveries) (s : launcher) : launcher :=
  let s := { s with status_ := ⟨SERVICE_WIN32_OWN_PROCESS, 0, 0, 0, 0, 0, 0⟩ }
  match s.app_ with
  | none => s
  | some app =>
    let s := { s with status_handle_ := m.register }
    if s.status_handle_ = none then s
    else
      let r := report_starting m (uint32_t app.starting_timeout) s
      if !r.1 then (report_stopped m r.2).2
      else
        let s := log_event Event.init r.2
        let s := deliver m d.while_initializing s
        if !app.initialize_returns then (report_stopped m s).2
        else
          let s := (report_running m s).2
          let s := log_event Event.run s
          let s := deliver m d.while_running s
          (report_stopped m s).2

/-! ## The registration manager -/

/-- An entry of the service database, as the calls of `uninstall` see it: whether
    `OpenServiceA` grants `SERVICE_QUERY_STATUS | DELETE`, whether `QueryServiceStatus`
    succeeds and the status it then reports, and whether `DeleteService` succeeds. -/
structure ServiceEntry where
  opens : Bool
  query_succeeds : Bool
  status : SERVICE_STATUS
  delete_succeeds : Bool
  deriving DecidableEq, Repr

/-- The service database: whether `OpenSCManager` succeeds, and the entry registered under
    each name. -/
structure Registry where
  manager_opens : Bool
  entries : String → Option ServiceEntry

/-- The Win32 calls `uninstall` makes. -/
inductive ApiCall where
  | OpenSCManager
  | OpenServiceA (name : String)
  | QueryServiceStatus (name : String)
  | DeleteService (name : String)
  | CloseHandle_service (name : String)
  | CloseHandle_manager
  deriving DecidableEq, Repr

/-- The database after the entry `name` has been deleted. -/
def Registry.remove (reg : Registry) (name : String) : Registry :=
  { reg with entries := fun n => if n = name then none else reg.entries n }

/-- The function `launcher::uninstall`: its result, the database afterwards, and the calls
    it made, in order. -/
def uninstall (app : application) (reg : Registry) : Bool × Registry × List ApiCall :=
  let calls := [ApiCall.OpenSCManager]
  if !reg.manager_opens then (false, reg, calls)
  else
    let calls := calls ++ [ApiCall.OpenServiceA app.title]
    match reg.entries app.title with
    | none => (false, reg, calls ++ [ApiCall.CloseHandle_manager])
    | some entry =>
      if !entry.opens then (false, reg, calls ++ [ApiCall.CloseHandle_manager])
      else
        let calls := calls ++ [ApiCall.QueryServiceStatus app.title]
        if !entry.query_succeeds || entry.status.dwCurrentState != SERVICE_STOPPED then
          (false, reg, calls ++ [ApiCall.CloseHandle_service app.title,
            ApiCall.CloseHandle_manager])
        else
          let calls := calls ++ [ApiCall.DeleteService app.title]
          if !entry.delete_succeeds then (false, reg, calls)
          else
            (true, reg.remove app.title,
              calls ++ [ApiCall.CloseHandle_service app.title, ApiCall.CloseHandle_manager])

/-! ## Stages of `service_entry` -/

/-- Answer of the manager to the `StartPending` publication of `service_entry` entered in
    state `s` with application `app`. -/
def start_pending_accepted (m : Manager) (app : application) (s : launcher) : Bool :=
  m.accepts (publications s.log).length
    ⟨SERVICE_WIN32_OWN_PROCESS, SERVICE_START_PENDING, 0, 0, 0, 1, uint32_t app.starting_timeout⟩

/-- The state of `service_entry` just after `report_starting` returned. -/
def after_report_starting (m : Manager) (app : application) (s : launcher) : launcher :=
  (report_starting m (uint32_t app.starting_timeout)
    { s with status_ := ⟨SERVICE_WIN32_OWN_PROCESS, 0, 0, 0, 0, 0, 0⟩,
             status_handle_ := m.register }).2

/-- The state of `service_entry` when `initialize()` returns: the call is logged and the
    control commands delivered meanwhile have been handled. -/
def when_initialized (m : Manager) (d : Deliveries) (app : application) (s : launcher) :
    launcher :=
  deliver m d.while_initializing (log_event Event.init (after_report_starting m app s))

/-- The state of `service_entry` when `run()` returns. -/
def when_run_returned (m : Manager) (d : Deliveries) (app : application) (s : launcher) :
    launcher :=
  deliver m d.while_running
    (log_event Event.run (report_running m (when_initialized m d app s)).2)

/-! ## Concrete scenarios -/

/-- A manager that registers the handler and accepts every publication. -/
def accepting_manager : Manager := ⟨some 1, fun _ _ => true⟩

/-- A manager that accepts every publication but the second one, which in a successful
    startup is the `Running` publication. -/
def running_rejecting_manager : Manager := ⟨some 1, fun n _ => n != 1⟩

/-- The application of the scenario: `starting_timeout` 5 s, `stopping_timeout` 3 s,
    `initialize()` succeeds. -/
def demo_app : application := ⟨"demo", "demo service", "--service", 5000, 3000, true, true⟩

/-- An application whose `initialize()` fails. -/
def failing_app : application := ⟨"demo", "demo service", "--service", 5000, 3000, false, true⟩

/-- An application whose `stopping_timeout` is `2^32` milliseconds. -/
def long_stop_app : application :=
  ⟨"demo", "demo service", "--service", 5000, 4294967296, true, true⟩

/-- A database whose only entry is `demo`, with the given recorded phase. -/
def demo_registry (state : Nat) : Registry :=
  ⟨true, fun n => if n = "demo" then
    some ⟨true, true, ⟨SERVICE_WIN32_OWN_PROCESS, state, 0, 0, 0, 0, 0⟩, true⟩ else none⟩

/-! ## States of the process -/

/-- The process state when the dispatcher calls `service_entry`: `launcher::run` has stored
    the application, the other statics are zero-initialised. -/
def entry_state (app : application) : launcher := ⟨some app, ⟨0, 0, 0, 0, 0, 0, 0⟩, none, []⟩

/-- The process state while `run()` is blocked, no command delivered yet: the record is the
    one `report_running` published. -/
def running_state (app : application) : launcher :=
  ⟨some app, ⟨SERVICE_WIN32_OWN_PROCESS, SERVICE_RUNNING, SERVICE_ACCEPT_STOP, 0, 0, 0,
    uint32_t app.starting_timeout⟩, some 1, []⟩

/-- The process state during `initialize()` with the given checkpoint. -/
def starting_state (app : application) (checkpoint : Nat) : launcher :=
  ⟨some app, ⟨SERVICE_WIN32_OWN_PROCESS, SERVICE_START_PENDING, 0, 0, 0, checkpoint,
    uint32_t app.starting_timeout⟩, some 1, []⟩

/-- The process state after `run()` returned and `report_stopped` ran. -/
def stopped_state (app : application) : launcher :=
  (report_stopped accepting_manager (running_state app)).2

/-- The process state inside `report_stopped` on the shutdown path after a handled Stop:
    `app_.reset()` (line 283) has run, the phase (line 284) is not yet set. -/
def releasing_state (app : application) : launcher :=
  app_reset (service_control accepting_manager SERVICE_CONTROL_STOP (running_state app))

/-! ## The entry thread and the control thread

The service manager runs `service_entry` on one thread and calls `service_control` on
another.  Below, each thread advances by one statement of the source at a time, and a
schedule says which thread moves next.  The entry thread starts blocked in `run()`; the
control thread starts at the entry of `service_control` with `SERVICE_CONTROL_STOP`. -/

/-- Where the entry thread is in `service_entry`. -/
inductive EntryAt where
  /-- Inside `app_->run()` (line 219). -/
  | in_run
  /-- After `run()` has returned, before `report_stopped()` (line 220). -/
  | run_returned
  /-- After `report_stopped()` has returned. -/
  | finished
  deriving DecidableEq, Repr

/-- Where the control thread is in `service_control(SERVICE_CONTROL_STOP)`. -/
inductive ControlAt where
  /-- Before the test `if(!app_)` (line 230). -/
  | entered
  /-- The test found an application; before `report_stopping(...)` (line 237). -/
  | checked
  /-- After `report_stopping` has returned; before `app_->stop()` (line 238). -/
  | reported
  /-- The handler has returned. -/
  | returned
  /-- The handler has dereferenced `app_` after the application was released. -/
  | used_after_release
  deriving DecidableEq, Repr

/-- The shared statics and the position of both threads. -/
structure Threads where
  shared : launcher
  entry : EntryAt
  control : ControlAt

/-- The two threads. -/
inductive Thread where
  | entry
  | control
  deriving DecidableEq, Repr

/-- One statement of the chosen thread.  `run()` returns when the application decides to:
    of its own accord, or because it has seen a `stop()`. -/
def step (m : Manager) (who : Thread) (t : Threads) : Threads :=
  match who with
  | Thread.entry =>
    match t.entry with
    | EntryAt.in_run => { t with entry := EntryAt.run_returned }
    | EntryAt.run_returned =>
      { t with shared := (report_stopped m t.shared).2, entry := EntryAt.finished }
    | EntryAt.finished => t
  | Thread.control =>
    match t.control with
    | ControlAt.entered =>
      match t.shared.app_ with
      | none => { t with control := ControlAt.returned }
      | some _ => { t with control := ControlAt.checked }
    | ControlAt.checked =>
      match t.shared.app_ with
      | none => { t with control := ControlAt.used_after_release }
      | some app =>
        { t with shared := (report_stopping m (uint32_t app.stopping_timeout) t.shared).2,
                 control := ControlAt.reported }
    | ControlAt.reported =>
      match t.shared.app_ with
      | none => { t with control := ControlAt.used_after_release }
      | some _ => { t with shared := log_event Event.stop t.shared,
                           control := ControlAt.returned }
    | ControlAt.returned => t
    | ControlAt.used_after_release => t

/-- The threads after a schedule. -/
def interleave (m : Manager) (schedule : List Thread) (t : Threads) : Threads :=
  schedule.foldl (fun st who => step m who st) t

/-- Stop is delivered while `run()` is blocked. -/
def stop_delivered_in_run (app : application) : Threads :=
  ⟨running_state app, EntryAt.in_run, ControlAt.entered⟩

/-- The release count of a schedule state: none while the entry thread has not finished and
    the application is owned, one afterwards. -/
def release_invariant (t : Threads) : Prop :=
  (t.entry ≠ EntryAt.finished ∧ t.shared.app_ ≠ none ∧
      occurrences Event.release t.shared.log = 0) ∨
  (t.entry = EntryAt.finished ∧ t.shared.app_ = none ∧
      occurrences Event.release t.shared.log = 1)

/-! ## General facts -/

@[simp]
theorem log_event_log (e : Event) (s : launcher) :
    (log_event e s).log = s.log ++ [e] := rfl

@[simp]
theorem log_event_app (e : Event) (s : launcher) : (log_event e s).app_ = s.app_ := rfl

@[simp]
theorem log_event_status (e : Event) (s : launcher) :
    (log_event e s).status_ = s.status_ := rfl

@[simp]
theorem log_event_handle (e : Event) (s : launcher) :
    (log_event e s).status_handle_ = s.status_handle_ := rfl

theorem publications_append (xs ys : List Event) :
    publications (xs ++ ys) = publications xs ++ publications ys := by
  induction xs with
  | nil => rfl
  | cons e es ih => cases e <;> simp [publications, ih]

theorem phases_append (xs ys : List Event) : phases (xs ++ ys) = phases xs ++ phases ys := by
  simp [phases, publications_append]

theorem mem_publications (r : SERVICE_STATUS) (es : List Event) :
    r ∈ publications es ↔ ∃ ok, Event.publish r ok ∈ es := by
  induction es with
  | nil => simp [publications]
  | cons e es ih =>
    cases e with
    | publish r' ok' =>
      simp only [publications, List.mem_cons, ih, Event.publish.injEq]
      constructor
      · rintro (h | ⟨ok, h⟩)
        · exact ⟨ok', Or.inl ⟨h, rfl⟩⟩
        · exact ⟨ok, Or.inr h⟩
      · rintro ⟨ok, (⟨h, _⟩ | h)⟩
        · exact Or.inl h
        · exact Or.inr ⟨ok, h⟩
    | init => simp [publications, ih]
    | run => simp [publications, ih]
    | stop => simp [publications, ih]
    | release => simp [publications, ih]

/-- With an empty application slot the control handler returns at once. -/
theorem service_control_released (m : Manager) (c : Nat) (s : launcher) (h : s.app_ = none) :
    service_control m c s = s := by
  simp [service_control, h]

theorem deliver_cons (m : Manager) (c : Nat) (cs : List Nat) (s : launcher) :
    deliver m (c :: cs) s = deliver m cs (service_control m c s) := rfl

theorem deliver_released (m : Manager) (cs : List Nat) (s : launcher) (h : s.app_ = none) :
    deliver m cs s = s := by
  induction cs with
  | nil => rfl
  | cons c cs ih => rw [deliver_cons, service_control_released m c s h, ih]

/-- The control handler never touches the application slot. -/
theorem service_control_app (m : Manager) (c : Nat) (s : launcher) :
    (service_control m c s).app_ = s.app_ := by
  unfold service_control
  cases h : s.app_ with
  | none => simp [h]
  | some app =>
    simp only []
    split_ifs <;> simp [report_stopping, SetServiceStatus, h]

theorem deliver_app (m : Manager) (cs : List Nat) (s : launcher) :
    (deliver m cs s).app_ = s.app_ := by
  induction cs generalizing s with
  | nil => rfl
  | cons c cs ih => rw [deliver_cons, ih, service_control_app]

/-- After a control command the phase is the one before or `SERVICE_STOP_PENDING`. -/
theorem service_control_phase (m : Manager) (c : Nat) (s : launcher) :
    (service_control m c s).status_.dwCurrentState = s.status_.dwCurrentState ∨
    (service_control m c s).status_.dwCurrentState = SERVICE_STOP_PENDING := by
  unfold service_control
  cases h : s.app_ with
  | none => simp
  | some app =>
    simp only []
    split_ifs <;> simp [report_stopping, SetServiceStatus]

/-- Everything a control command adds to the log is a publication of the status record
    the handler leaves behind, or a call of `stop()`. -/
theorem service_control_log (m : Manager) (c : Nat) (s : launcher) :
    ∃ tail, (service_control m c s).log = s.log ++ tail ∧
      ∀ e ∈ tail, e = Event.stop ∨ ∃ ok, e = Event.publish (service_control m c s).status_ ok := by
  unfold service_control
  cases h : s.app_ with
  | none => exact ⟨[], by simp⟩
  | some app =>
    simp only []
    split_ifs with h1 h2 h3
    · refine ⟨[Event.publish (report_stopping m (uint32_t app.stopping_timeout) s).2.status_
        (report_stopping m (uint32_t app.stopping_timeout) s).1, Event.stop], ?_, ?_⟩
      · simp [report_stopping, SetServiceStatus]
      · simp
    · refine ⟨[Event.publish { s.status_ with dwCheckPoint := dword_inc s.status_.dwCheckPoint }
        (m.accepts (publications s.log).length
          { s.status_ with dwCheckPoint := dword_inc s.status_.dwCheckPoint })], ?_, ?_⟩
      · simp [SetServiceStatus]
      · simp [SetServiceStatus]
    · refine ⟨[Event.publish s.status_ (m.accepts (publications s.log).length s.status_)], ?_, ?_⟩
      · simp [SetServiceStatus]
      · simp [SetServiceStatus]
    · exact ⟨[], by simp⟩

/-- A property of phases that holds before a series of control commands and holds of
    `SERVICE_STOP_PENDING` holds of every record published meanwhile and of the phase
    afterwards; the series adds only publications and calls of `stop()` to the log. -/
theorem deliver_log (P : Nat → Prop) (hP : P SERVICE_STOP_PENDING) (m : Manager)
    (cs : List Nat) (s : launcher) (hs : P s.status_.dwCurrentState) :
    ∃ tail, (deliver m cs s).log = s.log ++ tail ∧
      (∀ e ∈ tail, e = Event.stop ∨ ∃ r ok, e = Event.publish r ok ∧ P r.dwCurrentState) ∧
      P (deliver m cs s).status_.dwCurrentState := by
  induction cs generalizing s with
  | nil => exact ⟨[], by simp [deliver], by simp, by simpa [deliver] using hs⟩
  | cons c cs ih =>
    have hph : P (service_control m c s).status_.dwCurrentState := by
      rcases service_control_phase m c s with h | h <;> rw [h] <;> assumption
    obtain ⟨t1, ht1, hev1⟩ := service_control_log m c s
    obtain ⟨t2, ht2, hev2, hfin⟩ := ih (service_control m c s) hph
    refine ⟨t1 ++ t2, ?_, ?_, ?_⟩
    · rw [deliver_cons, ht2, ht1, List.append_assoc]
    · intro e he
      rcases List.mem_append.mp he with h | h
      · rcases hev1 e h with h' | ⟨ok, h'⟩
        · exact Or.inl h'
        · exact Or.inr ⟨_, ok, h', hph⟩
      · exact hev2 e h
    · exact hfin

theorem after_report_starting_log (m : Manager) (app : application) (s : launcher) :
    (after_report_starting m app s).log = s.log ++
      [Event.publish ⟨SERVICE_WIN32_OWN_PROCESS, SERVICE_START_PENDING, 0, 0, 0, 1,
        uint32_t app.starting_timeout⟩ (start_pending_accepted m app s)] := by
  simp [after_report_starting, report_starting, SetServiceStatus, start_pending_accepted,
    dword_inc, UINT32_SIZE]

theorem after_report_starting_app (m : Manager) (app : application) (s : launcher) :
    (after_report_starting m app s).app_ = s.app_ := by
  simp [after_report_starting, report_starting, SetServiceStatus]

theorem after_report_starting_phase (m : Manager) (app : application) (s : launcher) :
    (after_report_starting m app s).status_.dwCurrentState = SERVICE_START_PENDING := by
  simp [after_report_starting, report_starting, SetServiceStatus]

/-- The three ways through `service_entry` once the control handler is registered. -/
theorem service_entry_paths (m : Manager) (d : Deliveries) (app : application) (s : launcher)
    (h : Nat) (hown : s.app_ = some app) (hreg : m.register = some h) :
    service_entry m d s =
      if start_pending_accepted m app s = false then
        (report_stopped m (after_report_starting m app s)).2
      else if app.initialize_returns = false then
        (report_stopped m (when_initialized m d app s)).2
      else (report_stopped m (when_run_returned m d app s)).2 := by
  obtain ⟨a, st, hd, lg⟩ := s
  obtain ⟨reg, acc⟩ := m
  simp only at hown hreg
  subst hown hreg
  have hacc : (report_starting ⟨some h, acc⟩ (uint32_t app.starting_timeout)
      ⟨some app, ⟨SERVICE_WIN32_OWN_PROCESS, 0, 0, 0, 0, 0, 0⟩, some h, lg⟩).1 =
      start_pending_accepted ⟨some h, acc⟩ app ⟨some app, st, hd, lg⟩ := by
    simp [report_starting, SetServiceStatus, start_pending_accepted, dword_inc, UINT32_SIZE]
  simp only [service_entry, after_report_starting, when_initialized, when_run_returned, hacc]
  cases h1 : start_pending_accepted ⟨some h, acc⟩ app ⟨some app, st, hd, lg⟩ <;>
    cases h2 : app.initialize_returns <;> simp

theorem report_stopped_app (m : Manager) (s : launcher) : (report_stopped m s).2.app_ = none := by
  unfold report_stopped app_reset
  cases h : s.app_ <;> simp [SetServiceStatus, h]

theorem report_stopped_phase (m : Manager) (s : launcher) :
    (report_stopped m s).2.status_.dwCurrentState = SERVICE_STOPPED := by
  unfold report_stopped app_reset
  cases h : s.app_ <;> simp [SetServiceStatus, h]

theorem report_stopped_log (m : Manager) (s : launcher) (app : application)
    (h : s.app_ = some app) :
    ∃ ok, (report_stopped m s).2.log = s.log ++ [Event.release,
      Event.publish { s.status_ with dwCurrentState := SERVICE_STOPPED, dwControlsAccepted := 0,
                                     dwCheckPoint := 0 } ok] := by
  unfold report_stopped app_reset
  simp [SetServiceStatus, h]

/-- The state of `service_entry` when `initialize()` returns still owns the application, is
    not in phase `Running`, and its log holds, after the `StartPending` publication and the
    call, only publications of other phases than `Running` and calls of `stop()`. -/
theorem when_initialized_spec (m : Manager) (d : Deliveries) (app : application)
    (s : launcher) (hown : s.app_ = some app) :
    (when_initialized m d app s).app_ = some app ∧
    (when_initialized m d app s).status_.dwCurrentState ≠ SERVICE_RUNNING ∧
    ∃ tail, (when_initialized m d app s).log = s.log ++
        (Event.publish ⟨SERVICE_WIN32_OWN_PROCESS, SERVICE_START_PENDING, 0, 0, 0, 1,
          uint32_t app.starting_timeout⟩ (start_pending_accepted m app s) :: Event.init :: tail) ∧
      ∀ e ∈ tail, e = Event.stop ∨
        ∃ r ok, e = Event.publish r ok ∧ r.dwCurrentState ≠ SERVICE_RUNNING := by
  have hP : SERVICE_STOP_PENDING ≠ SERVICE_RUNNING := by decide
  have h0 : (log_event Event.init (after_report_starting m app s)).status_.dwCurrentState
      ≠ SERVICE_RUNNING := by
    simp [after_report_starting_phase]; decide
  obtain ⟨t, ht, hev, hfin⟩ := deliver_log (fun p => p ≠ SERVICE_RUNNING) hP m
    d.while_initializing _ h0
  refine ⟨?_, hfin, t, ?_, hev⟩
  · simp [when_initialized, deliver_app, after_report_starting_app, hown]
  · simp [when_initialized, ht, after_report_starting_log]

/-- Control commands add no call of `initialize()` or `run()` and no release to the log. -/
theorem count_control_events (P : Nat → Prop) (t : List Event) (x : Event)
    (hx : x = Event.init ∨ x = Event.run ∨ x = Event.release)
    (h : ∀ e ∈ t, e = Event.stop ∨ ∃ r ok, e = Event.publish r ok ∧ P r.dwCurrentState) :
    t.count x = 0 := by
  apply List.count_eq_zero.mpr
  intro hmem
  rcases h x hmem with h' | ⟨r, ok, h', -⟩ <;> rcases hx with rfl | rfl | rfl <;> cases h'

/-- The state of `service_entry` when `run()` returns still owns the application; since
    `initialize()` returned, the log has gained the `Running` publication, the call of
    `run()`, and what the control commands delivered meanwhile published. -/
theorem when_run_returned_spec (m : Manager) (d : Deliveries) (app : application)
    (s : launcher) (hown : s.app_ = some app) :
    (when_run_returned m d app s).app_ = some app ∧
    ∃ ok tail, (when_run_returned m d app s).log = (when_initialized m d app s).log ++
        (Event.publish { (when_initialized m d app s).status_ with
            dwCurrentState := SERVICE_RUNNING, dwControlsAccepted := SERVICE_ACCEPT_STOP,
            dwCheckPoint := 0 } ok :: Event.run :: tail) ∧
      ∀ e ∈ tail, e = Event.stop ∨ ∃ r ok, e = Event.publish r ok ∧ True := by
  obtain ⟨t, ht, hev, -⟩ := deliver_log (fun _ => True) trivial m d.while_running
    (log_event Event.run (report_running m (when_initialized m d app s)).2) trivial
  refine ⟨?_, (report_running m (when_initialized m d app s)).1, t, ?_, hev⟩
  · simp [when_run_returned, deliver_app, report_running, SetServiceStatus,
      (when_initialized_spec m d app s hown).1]
  · simp only [when_run_returned, ht]
    simp [report_running, SetServiceStatus]

/-- The last record published by a log that ends with a publication. -/
theorem publications_getLast (es : List Event) (r : SERVICE_STATUS) (ok : Bool) :
    (publications (es ++ [Event.release, Event.publish r ok])).getLast? = some r := by
  simp [publications_append, publications]

/-! ## The claims -/

/-- C1: for an application whose `initialize()` returns true, when the manager accepts every
    publication, a single Stop delivered while `run()` is blocked makes `service_entry` and
    `service_control` publish exactly StartPending (checkpoint 1), Running (checkpoint 0),
    StopPending (checkpoint 1), Stopped (checkpoint 0), in this order; when no command is
    delivered they publish exactly StartPending, Running, Stopped. -/
theorem service_entry_phase_sequence (m : Manager) (app : application) (s : launcher) (h : Nat)
    (hown : s.app_ = some app) (hreg : m.register = some h)
    (hinit : app.initialize_returns = true)
    (hacc : ∀ n r, m.accepts n r = true) :
    (service_entry m ⟨[], [SERVICE_CONTROL_STOP]⟩ s).log = s.log ++
      [Event.publish ⟨SERVICE_WIN32_OWN_PROCESS, SERVICE_START_PENDING, 0, 0, 0, 1,
          uint32_t app.starting_timeout⟩ true,
       Event.init,
       Event.publish ⟨SERVICE_WIN32_OWN_PROCESS, SERVICE_RUNNING, SERVICE_ACCEPT_STOP, 0, 0, 0,
          uint32_t app.starting_timeout⟩ true,
       Event.run,
       Event.publish ⟨SERVICE_WIN32_OWN_PROCESS, SERVICE_STOP_PENDING, 0, 0, 0, 1,
          uint32_t app.stopping_timeout⟩ true,
       Event.stop,
       Event.release,
       Event.publish ⟨SERVICE_WIN32_OWN_PROCESS, SERVICE_STOPPED, 0, 0, 0, 0,
          uint32_t app.stopping_timeout⟩ true] ∧
    phases (service_entry m ⟨[], [SERVICE_CONTROL_STOP]⟩ s).log = phases s.log ++
      [(SERVICE_START_PENDING, 1), (SERVICE_RUNNING, 0),
        (SERVICE_STOP_PENDING, 1), (SERVICE_STOPPED, 0)] ∧
    (service_entry m ⟨[], []⟩ s).log = s.log ++
      [Event.publish ⟨SERVICE_WIN32_OWN_PROCESS, SERVICE_START_PENDING, 0, 0, 0, 1,
          uint32_t app.starting_timeout⟩ true,
       Event.init,
       Event.publish ⟨SERVICE_WIN32_OWN_PROCESS, SERVICE_RUNNING, SERVICE_ACCEPT_STOP, 0, 0, 0,
          uint32_t app.starting_timeout⟩ true,
       Event.run,
       Event.release,
       Event.publish ⟨SERVICE_WIN32_OWN_PROCESS, SERVICE_STOPPED, 0, 0, 0, 0,
          uint32_t app.starting_timeout⟩ true] ∧
    phases (service_entry m ⟨[], []⟩ s).log = phases s.log ++
      [(SERVICE_START_PENDING, 1), (SERVICE_RUNNING, 0), (SERVICE_STOPPED, 0)] := by
  have e1 : (service_entry m ⟨[], [SERVICE_CONTROL_STOP]⟩ s).log = s.log ++
      [Event.publish ⟨SERVICE_WIN32_OWN_PROCESS, SERVICE_START_PENDING, 0, 0, 0, 1,
          uint32_t app.starting_timeout⟩ true,
       Event.init,
       Event.publish ⟨SERVICE_WIN32_OWN_PROCESS, SERVICE_RUNNING, SERVICE_ACCEPT_STOP, 0, 0, 0,
          uint32_t app.starting_timeout⟩ true,
       Event.run,
       Event.publish ⟨SERVICE_WIN32_OWN_PROCESS, SERVICE_STOP_PENDING, 0, 0, 0, 1,
          uint32_t app.stopping_timeout⟩ true,
       Event.stop,
       Event.release,
       Event.publish ⟨SERVICE_WIN32_OWN_PROCESS, SERVICE_STOPPED, 0, 0, 0, 0,
          uint32_t app.stopping_timeout⟩ true] := by
    simp [service_entry, hown, hreg, hinit, hacc, report_starting, report_running,
      report_stopping, report_stopped, SetServiceStatus, deliver, service_control, app_reset,
      dword_inc, UINT32_SIZE]
  have e2 : (service_entry m ⟨[], []⟩ s).log = s.log ++
      [Event.publish ⟨SERVICE_WIN32_OWN_PROCESS, SERVICE_START_PENDING, 0, 0, 0, 1,
          uint32_t app.starting_timeout⟩ true,
       Event.init,
       Event.publish ⟨SERVICE_WIN32_OWN_PROCESS, SERVICE_RUNNING, SERVICE_ACCEPT_STOP, 0, 0, 0,
          uint32_t app.starting_timeout⟩ true,
       Event.run,
       Event.release,
       Event.publish ⟨SERVICE_WIN32_OWN_PROCESS, SERVICE_STOPPED, 0, 0, 0, 0,
          uint32_t app.starting_timeout⟩ true] := by
    simp [service_entry, hown, hreg, hinit, hacc, report_starting, report_running,
      report_stopping, report_stopped, SetServiceStatus, deliver, service_control, app_reset,
      dword_inc, UINT32_SIZE]
  refine ⟨e1, ?_, e2, ?_⟩
  · rw [e1, phases_append]; rfl
  · rw [e2, phases_append]; rfl

/-- Witness of C1: the scenario application under a manager that accepts everything. -/
theorem service_entry_phase_sequence_witness :
    phases (service_entry accepting_manager ⟨[], [SERVICE_CONTROL_STOP]⟩
        (entry_state demo_app)).log =
      [(SERVICE_START_PENDING, 1), (SERVICE_RUNNING, 0),
        (SERVICE_STOP_PENDING, 1), (SERVICE_STOPPED, 0)] ∧
    phases (service_entry accepting_manager ⟨[], []⟩ (entry_state demo_app)).log =
      [(SERVICE_START_PENDING, 1), (SERVICE_RUNNING, 0), (SERVICE_STOPPED, 0)] :=
  have w := service_entry_phase_sequence accepting_manager demo_app (entry_state demo_app) 1
    rfl rfl rfl (fun _ _ => rfl)
  ⟨w.2.1, w.2.2.2⟩

/-- C2: when the control handler is registered and either the `StartPending` publication is
    rejected or `initialize()` returns false, `service_entry` never publishes `Running`, never
    calls `run()`, publishes `Stopped` last and releases the application exactly once; when the
    `StartPending` publication is rejected it does not call `initialize()` either.  This holds
    whatever control commands arrive during `initialize()`. -/
theorem startup_failure_ends_stopped (m : Manager) (d : Deliveries) (app : application)
    (s : launcher) (h : Nat)
    (hown : s.app_ = some app) (hreg : m.register = some h)
    (hfail : start_pending_accepted m app s = false ∨ app.initialize_returns = false) :
    ∃ tail, (service_entry m d s).log = s.log ++ tail ∧
      (∀ r ∈ publications tail, r.dwCurrentState ≠ SERVICE_RUNNING) ∧
      Event.run ∉ tail ∧
      ((publications tail).getLast?.map (fun r => r.dwCurrentState) = some SERVICE_STOPPED) ∧
      occurrences Event.release tail = 1 ∧
      (service_entry m d s).app_ = none ∧
      (service_entry m d s).status_.dwCurrentState = SERVICE_STOPPED ∧
      (start_pending_accepted m app s = false → Event.init ∉ tail) := by
  have hne : SERVICE_START_PENDING ≠ SERVICE_RUNNING := by decide
  have hne' : SERVICE_STOPPED ≠ SERVICE_RUNNING := by decide
  rw [service_entry_paths m d app s h hown hreg]
  by_cases hacc : start_pending_accepted m app s = false
  · -- the StartPending publication is rejected
    rw [if_pos hacc]
    obtain ⟨ok, hlog⟩ := report_stopped_log m (after_report_starting m app s) app
      (by rw [after_report_starting_app, hown])
    refine ⟨_, by rw [hlog, after_report_starting_log, List.append_assoc], ?_, ?_, ?_, ?_,
      report_stopped_app _ _, report_stopped_phase _ _, ?_⟩
    · intro r hr
      simp [publications] at hr
      rcases hr with rfl | rfl <;> simp <;> assumption
    · simp
    · simp [publications]
    · simp [occurrences]
    · intro _; simp
  · -- initialize() returns false
    have hinit : app.initialize_returns = false := by
      rcases hfail with h' | h'
      · exact absurd h' hacc
      · exact h'
    rw [if_neg hacc, if_pos hinit]
    obtain ⟨hown2, -, t, ht, hev⟩ := when_initialized_spec m d app s hown
    obtain ⟨ok, hlog⟩ := report_stopped_log m (when_initialized m d app s) app hown2
    have hcount := count_control_events (fun p => p ≠ SERVICE_RUNNING) t Event.release (by simp) hev
    refine ⟨_, by rw [hlog, ht, List.append_assoc], ?_, ?_, ?_, ?_, report_stopped_app _ _,
      report_stopped_phase _ _, ?_⟩
    · intro r hr
      rw [mem_publications] at hr
      obtain ⟨ok', hr⟩ := hr
      simp at hr
      rcases hr with ⟨rfl, _⟩ | h' | ⟨rfl, _⟩
      · simpa using hne
      · rcases hev _ h' with h3 | ⟨r', ok3, h3, hr'⟩
        · cases h3
        · cases h3; exact hr'
      · simpa using hne'
    · simp
      intro h'
      rcases hev _ h' with h3 | ⟨r', ok3, h3, -⟩ <;> cases h3
    · rw [publications_getLast]; rfl
    · simp [occurrences, List.count_cons, hcount]
    · intro h'; exact absurd h' hacc

/-- Witness of C2: an application whose `initialize()` fails, Stop and Interrogate arriving
    meanwhile. -/
theorem startup_failure_ends_stopped_witness :
    ∃ tail, (service_entry accepting_manager
        ⟨[SERVICE_CONTROL_INTERROGATE, SERVICE_CONTROL_STOP], []⟩ (entry_state failing_app)).log
        = (entry_state failing_app).log ++ tail ∧
      (∀ r ∈ publications tail, r.dwCurrentState ≠ SERVICE_RUNNING) ∧
      Event.run ∉ tail ∧
      ((publications tail).getLast?.map (fun r => r.dwCurrentState) = some SERVICE_STOPPED) ∧
      occurrences Event.release tail = 1 ∧
      (service_entry accepting_manager
        ⟨[SERVICE_CONTROL_INTERROGATE, SERVICE_CONTROL_STOP], []⟩ (entry_state failing_app)).app_
        = none ∧
      (service_entry accepting_manager
        ⟨[SERVICE_CONTROL_INTERROGATE, SERVICE_CONTROL_STOP], []⟩
        (entry_state failing_app)).status_.dwCurrentState = SERVICE_STOPPED ∧
      (start_pending_accepted accepting_manager failing_app (entry_state failing_app) = false →
        Event.init ∉ tail) :=
  startup_failure_ends_stopped accepting_manager
    ⟨[SERVICE_CONTROL_INTERROGATE, SERVICE_CONTROL_STOP], []⟩ failing_app
    (entry_state failing_app) 1 rfl rfl (Or.inr rfl)

/-- C3, as stated, fails: for an application whose `stopping_timeout` is `2^32` ms, the record
    published by the Stop handler has wait-hint 0, not the timeout. -/
theorem stop_wait_hint_not_timeout :
    publications (service_control accepting_manager SERVICE_CONTROL_STOP
        (running_state long_stop_app)).log =
      [⟨SERVICE_WIN32_OWN_PROCESS, SERVICE_STOP_PENDING, 0, 0, 0, 1, 0⟩] ∧
    ¬ ∃ r ∈ publications (service_control accepting_manager SERVICE_CONTROL_STOP
        (running_state long_stop_app)).log,
      (r.dwWaitHint : Int) = long_stop_app.stopping_timeout := by
  decide

/-- C3, amended: while the application is owned, the Stop handler first publishes one record
    with phase `StopPending`, an empty accepted-controls mask, the checkpoint advanced, and as
    wait-hint the `stopping_timeout` count converted to 32 bits (the count itself when it lies
    in `0 .. 2^32-1`); then it calls `stop()` once.  It publishes nothing else, and leaves
    the application owned. -/
theorem stop_publishes_then_stops (m : Manager) (s : launcher) (app : application)
    (hown : s.app_ = some app) :
    (service_control m SERVICE_CONTROL_STOP s).log = s.log ++
      [Event.publish
        ⟨s.status_.dwServiceType, SERVICE_STOP_PENDING, 0, s.status_.dwWin32ExitCode,
          s.status_.dwServiceSpecificExitCode, dword_inc s.status_.dwCheckPoint,
          uint32_t app.stopping_timeout⟩
        (m.accepts (publications s.log).length
          ⟨s.status_.dwServiceType, SERVICE_STOP_PENDING, 0, s.status_.dwWin32ExitCode,
            s.status_.dwServiceSpecificExitCode, dword_inc s.status_.dwCheckPoint,
            uint32_t app.stopping_timeout⟩),
       Event.stop] ∧
    (service_control m SERVICE_CONTROL_STOP s).app_ = some app ∧
    (service_control m SERVICE_CONTROL_STOP s).status_.dwCurrentState = SERVICE_STOP_PENDING ∧
    (0 ≤ app.stopping_timeout → app.stopping_timeout < 4294967296 →
      (uint32_t app.stopping_timeout : Int) = app.stopping_timeout) := by
  refine ⟨?_, ?_, ?_, ?_⟩
  · simp [service_control, hown, report_stopping, SetServiceStatus]
  · rw [service_control_app, hown]
  · simp [service_control, hown, report_stopping, SetServiceStatus]
  · intro h0 h1
    unfold uint32_t
    rw [Int.emod_eq_of_lt h0 h1, Int.toNat_of_nonneg h0]

/-- Witness of C3 amended: Stop delivered to the scenario application while it runs. -/
theorem stop_publishes_then_stops_witness :
    (service_control accepting_manager SERVICE_CONTROL_STOP (running_state demo_app)).log =
      [Event.publish ⟨SERVICE_WIN32_OWN_PROCESS, SERVICE_STOP_PENDING, 0, 0, 0, 1, 3000⟩ true,
       Event.stop] :=
  (stop_publishes_then_stops accepting_manager (running_state demo_app) demo_app rfl).1

/-- C4, as stated, fails: inside `report_stopped`, after `app_.reset()` (line 283) and before
    the phase is set (line 284), the slot is empty while the phase is still `StopPending`; an
    Interrogate handled there returns at the test of `app_` and leaves the checkpoint as it
    is instead of incrementing it. -/
theorem interrogate_skips_increment_once_released :
    (releasing_state demo_app).app_ = none ∧
    (releasing_state demo_app).status_.dwCurrentState = SERVICE_STOP_PENDING ∧
    (releasing_state demo_app).status_.dwCheckPoint = 1 ∧
    (service_control accepting_manager SERVICE_CONTROL_INTERROGATE
        (releasing_state demo_app)).status_.dwCheckPoint = 1 ∧
    ¬ ((service_control accepting_manager SERVICE_CONTROL_INTERROGATE
        (releasing_state demo_app)).status_.dwCheckPoint =
      (releasing_state demo_app).status_.dwCheckPoint + 1) := by
  decide

/-- C4, amended: in every state, handling Interrogate leaves the phase, the wait-hint and the
    accepted-controls mask unchanged, leaves the application slot unchanged, and adds nothing
    but publications to the log (no call of the application, no release); the checkpoint
    becomes the prior value plus one modulo `2^32` when the application is owned and the phase
    is `StartPending` or `StopPending`, and is unchanged otherwise. -/
theorem interrogate_keeps_phase (m : Manager) (s : launcher) :
    (service_control m SERVICE_CONTROL_INTERROGATE s).status_.dwCurrentState
      = s.status_.dwCurrentState ∧
    (service_control m SERVICE_CONTROL_INTERROGATE s).status_.dwWaitHint
      = s.status_.dwWaitHint ∧
    (service_control m SERVICE_CONTROL_INTERROGATE s).status_.dwControlsAccepted
      = s.status_.dwControlsAccepted ∧
    (service_control m SERVICE_CONTROL_INTERROGATE s).app_ = s.app_ ∧
    (∃ tail, (service_control m SERVICE_CONTROL_INTERROGATE s).log = s.log ++ tail ∧
      ∀ e ∈ tail, ∃ r ok, e = Event.publish r ok) ∧
    (service_control m SERVICE_CONTROL_INTERROGATE s).status_.dwCheckPoint =
      (if s.app_.isSome = true ∧ (s.status_.dwCurrentState = SERVICE_START_PENDING
          ∨ s.status_.dwCurrentState = SERVICE_STOP_PENDING)
        then (s.status_.dwCheckPoint + 1) % 4294967296 else s.status_.dwCheckPoint) := by
  cases h : s.app_ with
  | none =>
    rw [service_control_released m _ s h]
    refine ⟨rfl, rfl, rfl, h, ⟨[], by simp, by simp⟩, ?_⟩
    simp
  | some app =>
    by_cases hp : s.status_.dwCurrentState = SERVICE_START_PENDING
        ∨ s.status_.dwCurrentState = SERVICE_STOP_PENDING
    · refine ⟨?_, ?_, ?_, ?_, ⟨[Event.publish
          { s.status_ with dwCheckPoint := dword_inc s.status_.dwCheckPoint }
          (m.accepts (publications s.log).length
            { s.status_ with dwCheckPoint := dword_inc s.status_.dwCheckPoint })], ?_,
          fun e he => ⟨_, _, List.mem_singleton.mp he⟩⟩, ?_⟩ <;>
        simp [service_control, h, hp, SetServiceStatus, SERVICE_CONTROL_STOP,
          SERVICE_CONTROL_INTERROGATE, dword_inc, UINT32_SIZE]
    · refine ⟨?_, ?_, ?_, ?_, ⟨[Event.publish s.status_
          (m.accepts (publications s.log).length s.status_)], ?_,
          fun e he => ⟨_, _, List.mem_singleton.mp he⟩⟩, ?_⟩ <;>
        simp [service_control, h, hp, SetServiceStatus, SERVICE_CONTROL_STOP,
          SERVICE_CONTROL_INTERROGATE]

/-- C5, as stated, fails: at the largest value of the 32-bit counter, Interrogate in phase
    `StartPending` and `report_stopping` both yield checkpoint 0, which is not greater; and
    with the application released (inside `report_stopped`, between lines 283 and 284) an
    Interrogate in phase `StopPending` does not advance the checkpoint at all. -/
theorem checkpoint_wraps_at_maximum :
    (service_control accepting_manager SERVICE_CONTROL_INTERROGATE
        (starting_state demo_app 4294967295)).status_.dwCheckPoint = 0 ∧
    ¬ ((starting_state demo_app 4294967295).status_.dwCheckPoint <
        (service_control accepting_manager SERVICE_CONTROL_INTERROGATE
          (starting_state demo_app 4294967295)).status_.dwCheckPoint) ∧
    ¬ ((starting_state demo_app 4294967295).status_.dwCheckPoint <
        (report_stopping accepting_manager 3000
          (starting_state demo_app 4294967295)).2.status_.dwCheckPoint) ∧
    (releasing_state demo_app).status_.dwCurrentState = SERVICE_STOP_PENDING ∧
    ¬ ((releasing_state demo_app).status_.dwCheckPoint <
        (service_control accepting_manager SERVICE_CONTROL_INTERROGATE
          (releasing_state demo_app)).status_.dwCheckPoint) := by
  decide

/-- C5, amended: `report_starting`, `report_stopping`, and Interrogate while the application
    is owned and the phase is `StartPending` or `StopPending` each yield the prior checkpoint
    plus one modulo `2^32`: that is the prior value plus one, strictly greater than before,
    for every prior value below `2^32 - 1`, and 0 at `2^32 - 1`.  `report_running` and
    `report_stopped` always yield checkpoint 0. -/
theorem checkpoint_advances_modulo (m : Manager) (millis : Nat) (s : launcher) :
    (report_starting m millis s).2.status_.dwCheckPoint
      = (s.status_.dwCheckPoint + 1) % 4294967296 ∧
    (report_stopping m millis s).2.status_.dwCheckPoint
      = (s.status_.dwCheckPoint + 1) % 4294967296 ∧
    (s.app_.isSome = true →
      s.status_.dwCurrentState = SERVICE_START_PENDING
        ∨ s.status_.dwCurrentState = SERVICE_STOP_PENDING →
      (service_control m SERVICE_CONTROL_INTERROGATE s).status_.dwCheckPoint
        = (s.status_.dwCheckPoint + 1) % 4294967296) ∧
    (s.status_.dwCheckPoint < 4294967295 →
      (report_starting m millis s).2.status_.dwCheckPoint = s.status_.dwCheckPoint + 1 ∧
      (report_stopping m millis s).2.status_.dwCheckPoint = s.status_.dwCheckPoint + 1 ∧
      s.status_.dwCheckPoint < (report_starting m millis s).2.status_.dwCheckPoint ∧
      s.status_.dwCheckPoint < (report_stopping m millis s).2.status_.dwCheckPoint ∧
      (s.app_.isSome = true →
        s.status_.dwCurrentState = SERVICE_START_PENDING
          ∨ s.status_.dwCurrentState = SERVICE_STOP_PENDING →
        (service_control m SERVICE_CONTROL_INTERROGATE s).status_.dwCheckPoint
            = s.status_.dwCheckPoint + 1 ∧
          s.status_.dwCheckPoint <
            (service_control m SERVICE_CONTROL_INTERROGATE s).status_.dwCheckPoint)) ∧
    (s.status_.dwCheckPoint = 4294967295 →
      (report_starting m millis s).2.status_.dwCheckPoint = 0 ∧
      (report_stopping m millis s).2.status_.dwCheckPoint = 0 ∧
      (s.app_.isSome = true →
        s.status_.dwCurrentState = SERVICE_START_PENDING
          ∨ s.status_.dwCurrentState = SERVICE_STOP_PENDING →
        (service_control m SERVICE_CONTROL_INTERROGATE s).status_.dwCheckPoint = 0)) ∧
    (report_running m s).2.status_.dwCheckPoint = 0 ∧
    (report_stopped m s).2.status_.dwCheckPoint = 0 := by
  have h1 : (report_starting m millis s).2.status_.dwCheckPoint
      = (s.status_.dwCheckPoint + 1) % 4294967296 := by
    simp [report_starting, SetServiceStatus, dword_inc, UINT32_SIZE]
  have h2 : (report_stopping m millis s).2.status_.dwCheckPoint
      = (s.status_.dwCheckPoint + 1) % 4294967296 := by
    simp [report_stopping, SetServiceStatus, dword_inc, UINT32_SIZE]
  have h3 : s.app_.isSome = true →
      s.status_.dwCurrentState = SERVICE_START_PENDING
        ∨ s.status_.dwCurrentState = SERVICE_STOP_PENDING →
      (service_control m SERVICE_CONTROL_INTERROGATE s).status_.dwCheckPoint
        = (s.status_.dwCheckPoint + 1) % 4294967296 := by
    intro hown hp
    obtain ⟨app, happ⟩ := Option.isSome_iff_exists.mp hown
    simp [service_control, happ, hp, SetServiceStatus, SERVICE_CONTROL_STOP,
      SERVICE_CONTROL_INTERROGATE, dword_inc, UINT32_SIZE]
  refine ⟨h1, h2, h3, ?_, ?_, ?_, ?_⟩
  · intro hcp
    have hmod : (s.status_.dwCheckPoint + 1) % 4294967296 = s.status_.dwCheckPoint + 1 :=
      Nat.mod_eq_of_lt (by omega)
    refine ⟨by rw [h1, hmod], by rw [h2, hmod], by rw [h1, hmod]; omega,
      by rw [h2, hmod]; omega, ?_⟩
    intro hown hp
    rw [h3 hown hp, hmod]
    exact ⟨rfl, by omega⟩
  · intro hcp
    refine ⟨by rw [h1, hcp], by rw [h2, hcp], ?_⟩
    intro hown hp
    rw [h3 hown hp, hcp]
  · simp [report_running, SetServiceStatus]
  · unfold report_stopped app_reset
    cases h : s.app_ <;> simp [SetServiceStatus, h]

/-- Witness of C5 amended: the scenario application during `initialize()`, checkpoint 1. -/
theorem checkpoint_advances_modulo_witness :
    (service_control accepting_manager SERVICE_CONTROL_INTERROGATE
        (starting_state demo_app 1)).status_.dwCheckPoint = 2 ∧
    (starting_state demo_app 1).status_.dwCheckPoint <
      (service_control accepting_manager SERVICE_CONTROL_INTERROGATE
        (starting_state demo_app 1)).status_.dwCheckPoint :=
  (checkpoint_advances_modulo accepting_manager 5000 (starting_state demo_app 1)).2.2.2.1
    (by decide) |>.2.2.2.2 rfl (Or.inl rfl)

/-- C7, as stated, fails: after `report_stopped` has released the application, the phase is
    `Stopped` and an Interrogate publishes nothing. -/
theorem interrogate_after_release_is_silent :
    (stopped_state demo_app).status_.dwCurrentState = SERVICE_STOPPED ∧
    (stopped_state demo_app).app_ = none ∧
    publications (service_control accepting_manager SERVICE_CONTROL_INTERROGATE
        (stopped_state demo_app)).log = publications (stopped_state demo_app).log ∧
    ¬ ((publications (service_control accepting_manager SERVICE_CONTROL_INTERROGATE
        (stopped_state demo_app)).log).length
      = (publications (stopped_state demo_app).log).length + 1) := by
  decide

/-- C7, amended: while the application is owned (phases `StartPending`, `Running`,
    `StopPending`), an Interrogate causes exactly one publication, of the current record with
    the checkpoint advanced when the phase is pending and as it is otherwise; once
    `report_stopped` has released the application (phase `Stopped`), an Interrogate
    publishes nothing and changes nothing. -/
theorem interrogate_publishes_while_owned (m : Manager) (s : launcher) (app : application)
    (hown : s.app_ = some app) :
    (s.status_.dwCurrentState = SERVICE_START_PENDING
        ∨ s.status_.dwCurrentState = SERVICE_STOP_PENDING →
      (service_control m SERVICE_CONTROL_INTERROGATE s).log = s.log ++
        [Event.publish { s.status_ with dwCheckPoint := dword_inc s.status_.dwCheckPoint }
          (m.accepts (publications s.log).length
            { s.status_ with dwCheckPoint := dword_inc s.status_.dwCheckPoint })]) ∧
    (¬ (s.status_.dwCurrentState = SERVICE_START_PENDING
        ∨ s.status_.dwCurrentState = SERVICE_STOP_PENDING) →
      (service_control m SERVICE_CONTROL_INTERROGATE s).log = s.log ++
        [Event.publish s.status_ (m.accepts (publications s.log).length s.status_)]) ∧
    (∀ (m' : Manager) (s' : launcher),
      service_control m SERVICE_CONTROL_INTERROGATE (report_stopped m' s').2
        = (report_stopped m' s').2) := by
  refine ⟨?_, ?_, ?_⟩
  · intro hp
    simp [service_control, hown, hp, SetServiceStatus, SERVICE_CONTROL_STOP,
      SERVICE_CONTROL_INTERROGATE]
  · intro hp
    simp [service_control, hown, hp, SetServiceStatus, SERVICE_CONTROL_STOP,
      SERVICE_CONTROL_INTERROGATE]
  · intro m' s'
    exact service_control_released m _ _ (report_stopped_app m' s')

/-- Witness of C7 amended: Interrogate while the scenario application runs. -/
theorem interrogate_publishes_while_owned_witness :
    (service_control accepting_manager SERVICE_CONTROL_INTERROGATE
        (running_state demo_app)).log =
      [Event.publish ⟨SERVICE_WIN32_OWN_PROCESS, SERVICE_RUNNING, SERVICE_ACCEPT_STOP, 0, 0, 0,
        5000⟩ true] :=
  (interrogate_publishes_while_owned accepting_manager (running_state demo_app) demo_app
    rfl).2.1 (by decide)

/-- C8: once `report_stopped` has run, the phase is `Stopped` and the application slot is
    empty, and any series of control commands (Stop, Interrogate or any other code) leaves
    the whole state as it is: the phase stays `Stopped`, and the log gains no publication
    and no call of the application. -/
theorem stopped_is_terminal (m m' : Manager) (s : launcher) (commands : List Nat) :
    (report_stopped m s).2.status_.dwCurrentState = SERVICE_STOPPED ∧
    (report_stopped m s).2.app_ = none ∧
    deliver m' commands (report_stopped m s).2 = (report_stopped m s).2 ∧
    (deliver m' commands (report_stopped m s).2).status_.dwCurrentState = SERVICE_STOPPED ∧
    (deliver m' commands (report_stopped m s).2).log = (report_stopped m s).2.log := by
  have h := deliver_released m' commands _ (report_stopped_app m s)
  exact ⟨report_stopped_phase m s, report_stopped_app m s, h, by rw [h, report_stopped_phase],
    by rw [h]⟩

/-- C6, as stated, fails: when the manager rejects the `Running` publication made after a
    successful `initialize()`, `service_entry` still calls `run()`. -/
theorem rejected_running_still_runs :
    (service_entry running_rejecting_manager ⟨[], []⟩ (entry_state demo_app)).log =
      [Event.publish ⟨SERVICE_WIN32_OWN_PROCESS, SERVICE_START_PENDING, 0, 0, 0, 1, 5000⟩ true,
       Event.init,
       Event.publish ⟨SERVICE_WIN32_OWN_PROCESS, SERVICE_RUNNING, SERVICE_ACCEPT_STOP, 0, 0, 0,
         5000⟩ false,
       Event.run,
       Event.release,
       Event.publish ⟨SERVICE_WIN32_OWN_PROCESS, SERVICE_STOPPED, 0, 0, 0, 0, 5000⟩ true] ∧
    ¬ (Event.run ∉ (service_entry running_rejecting_manager ⟨[], []⟩
        (entry_state demo_app)).log) := by
  decide

/-- C6, amended: a rejected `StartPending` publication is fatal: `service_entry` calls neither
    `initialize()` nor `run()` and ends in `Stopped`.  The answer to the `Running` publication
    is not examined: when `StartPending` was accepted and `initialize()` returned true,
    `run()` is called exactly once, after a `Running` publication that the manager may have
    accepted or rejected, and `service_entry` ends in `Stopped` once `run()` has returned. -/
theorem startup_publication_failure (m : Manager) (d : Deliveries) (app : application)
    (s : launcher) (h : Nat) (hown : s.app_ = some app) (hreg : m.register = some h) :
    (service_entry m d s).status_.dwCurrentState = SERVICE_STOPPED ∧
    (service_entry m d s).app_ = none ∧
    ∃ tail, (service_entry m d s).log = s.log ++ tail ∧
      ((publications tail).getLast?.map (fun r => r.dwCurrentState) = some SERVICE_STOPPED) ∧
      (start_pending_accepted m app s = false →
        Event.init ∉ tail ∧ Event.run ∉ tail) ∧
      (start_pending_accepted m app s = true → app.initialize_returns = true →
        occurrences Event.run tail = 1 ∧
        ∃ before ok after, tail = before ++ Event.publish
            { (when_initialized m d app s).status_ with
              dwCurrentState := SERVICE_RUNNING, dwControlsAccepted := SERVICE_ACCEPT_STOP,
              dwCheckPoint := 0 } ok :: Event.run :: after) := by
  rw [service_entry_paths m d app s h hown hreg]
  cases hacc : start_pending_accepted m app s with
  | false =>
    rw [if_pos rfl]
    obtain ⟨ok, hlog⟩ := report_stopped_log m (after_report_starting m app s) app
      (by rw [after_report_starting_app, hown])
    refine ⟨report_stopped_phase _ _, report_stopped_app _ _, _,
      by rw [hlog, after_report_starting_log, List.append_assoc], ?_, ?_, ?_⟩
    · simp [publications]
    · intro _; simp
    · intro h'; cases h'
  | true =>
    rw [if_neg (by simp)]
    cases hinit : app.initialize_returns with
    | false =>
      rw [if_pos rfl]
      obtain ⟨hown2, -, t, ht, -⟩ := when_initialized_spec m d app s hown
      obtain ⟨ok, hlog⟩ := report_stopped_log m (when_initialized m d app s) app hown2
      refine ⟨report_stopped_phase _ _, report_stopped_app _ _, _,
        by rw [hlog, ht, List.append_assoc], ?_, ?_, ?_⟩
      · rw [publications_getLast]; rfl
      · intro h'; cases h'
      · intro _ h'; cases h'
    | true =>
      rw [if_neg (by simp)]
      obtain ⟨-, -, t1, ht1, hev1⟩ := when_initialized_spec m d app s hown
      obtain ⟨hown3, ok, t2, ht2, hev2⟩ := when_run_returned_spec m d app s hown
      obtain ⟨ok', hlog⟩ := report_stopped_log m (when_run_returned m d app s) app hown3
      have hc1 := count_control_events (fun p => p ≠ SERVICE_RUNNING) t1 Event.run (by simp) hev1
      have hc2 := count_control_events (fun _ => True) t2 Event.run (by simp) hev2
      refine ⟨report_stopped_phase _ _, report_stopped_app _ _, _,
        by rw [hlog, ht2, ht1, List.append_assoc, List.append_assoc], ?_, ?_, ?_⟩
      · rw [← List.append_assoc, publications_getLast]; rfl
      · intro h'; cases h'
      · intro _ _
        refine ⟨?_, _, ok, _, rfl⟩
        simp [occurrences, List.count_cons, hc1, hc2]

/-- Witness of C6 amended: the scenario application under a manager that rejects the
    `Running` publication. -/
theorem startup_publication_failure_witness :
    (service_entry running_rejecting_manager ⟨[], []⟩
      (entry_state demo_app)).status_.dwCurrentState = SERVICE_STOPPED :=
  (startup_publication_failure running_rejecting_manager ⟨[], []⟩ demo_app
    (entry_state demo_app) 1 rfl rfl).1

/-- When the Stop handler runs to its end before `run()` returns, the two threads publish
    `StopPending` and then `Stopped`, and `stop()` is called on the owned application. -/
theorem stop_handler_before_run_returns :
    (interleave accepting_manager
        [Thread.control, Thread.control, Thread.control, Thread.entry, Thread.entry]
        (stop_delivered_in_run demo_app)).control = ControlAt.returned ∧
    (interleave accepting_manager
        [Thread.control, Thread.control, Thread.control, Thread.entry, Thread.entry]
        (stop_delivered_in_run demo_app)).shared.log =
      [Event.publish ⟨SERVICE_WIN32_OWN_PROCESS, SERVICE_STOP_PENDING, 0, 0, 0, 1, 3000⟩ true,
       Event.stop,
       Event.release,
       Event.publish ⟨SERVICE_WIN32_OWN_PROCESS, SERVICE_STOPPED, 0, 0, 0, 0, 3000⟩ true] := by
  decide

theorem release_invariant_step (m : Manager) (who : Thread) (t : Threads)
    (ht : release_invariant t) : release_invariant (step m who t) := by
  unfold step
  cases who with
  | entry =>
    cases he : t.entry with
    | in_run =>
      rcases ht with ⟨-, h2, h3⟩ | ⟨h1, -, -⟩
      · exact Or.inl ⟨by simp, h2, h3⟩
      · rw [he] at h1; cases h1
    | run_returned =>
      rcases ht with ⟨-, h2, h3⟩ | ⟨h1, -, -⟩
      · obtain ⟨app, happ⟩ := Option.ne_none_iff_exists'.mp h2
        obtain ⟨ok, hlog⟩ := report_stopped_log m t.shared app happ
        refine Or.inr ⟨rfl, report_stopped_app m t.shared, ?_⟩
        simp only [hlog]
        simp only [occurrences] at h3 ⊢
        simp [List.count_cons, h3]
      · rw [he] at h1; cases h1
    | finished => simpa [he] using ht
  | control =>
    cases hc : t.control with
    | entered => cases h : t.shared.app_ <;> simpa [h] using ht
    | checked =>
      cases h : t.shared.app_ with
      | none => simpa [h] using ht
      | some app =>
        rcases ht with ⟨h1, h2, h3⟩ | ⟨-, h2, -⟩
        · refine Or.inl ⟨h1, by simp [report_stopping, SetServiceStatus, h], ?_⟩
          simp only [occurrences] at h3 ⊢
          simp [report_stopping, SetServiceStatus, List.count_cons, h3]
        · rw [h] at h2; cases h2
    | reported =>
      cases h : t.shared.app_ with
      | none => simpa [h] using ht
      | some app =>
        rcases ht with ⟨h1, h2, h3⟩ | ⟨-, h2, -⟩
        · refine Or.inl ⟨h1, by simp [h], ?_⟩
          simp only [occurrences] at h3 ⊢
          simp [List.count_cons, h3]
        · rw [h] at h2; cases h2
    | returned => exact ht
    | used_after_release => exact ht

/-- Under every schedule of the two threads the application is released at most once, and
    exactly once when `service_entry` has returned. -/
theorem released_at_most_once (m : Manager) (app : application) (schedule : List Thread) :
    occurrences Event.release (interleave m schedule (stop_delivered_in_run app)).shared.log ≤ 1 ∧
    ((interleave m schedule (stop_delivered_in_run app)).entry = EntryAt.finished →
      occurrences Event.release
        (interleave m schedule (stop_delivered_in_run app)).shared.log = 1) := by
  have key : ∀ (sch : List Thread) (t : Threads), release_invariant t →
      release_invariant (interleave m sch t) := by
    intro sch
    induction sch with
    | nil => intro t ht; exact ht
    | cons w ws ih => intro t ht; exact ih _ (release_invariant_step m w t ht)
  have h0 : release_invariant (stop_delivered_in_run app) :=
    Or.inl ⟨by simp [stop_delivered_in_run], by simp [stop_delivered_in_run, running_state],
      by simp [stop_delivered_in_run, running_state, occurrences]⟩
  rcases key schedule _ h0 with ⟨h1, -, h3⟩ | ⟨h1, -, h3⟩
  · exact ⟨by omega, fun h => absurd h h1⟩
  · exact ⟨by omega, fun _ => h3⟩

/-- C9: when the entry named by the application's title exists and its status cannot be
    queried or its recorded phase is not `Stopped`, `uninstall` returns false, never calls
    `DeleteService` and leaves the database as it is; and whenever `uninstall` calls
    `DeleteService`, the manager and the entry were opened and the queried phase is
    `Stopped`. -/
theorem uninstall_refuses_unless_stopped (app : application) (reg : Registry)
    (entry : ServiceEntry) (hentry : reg.entries app.title = some entry)
    (hbusy : entry.query_succeeds = false ∨ entry.status.dwCurrentState ≠ SERVICE_STOPPED) :
    (uninstall app reg).1 = false ∧
    (∀ name, ApiCall.DeleteService name ∉ (uninstall app reg).2.2) ∧
    (uninstall app reg).2.1 = reg ∧
    (∀ (reg' : Registry) (name : String),
      ApiCall.DeleteService name ∈ (uninstall app reg').2.2 →
      reg'.manager_opens = true ∧
      ∃ e, reg'.entries app.title = some e ∧ e.opens = true ∧ e.query_succeeds = true ∧
        e.status.dwCurrentState = SERVICE_STOPPED) := by
  have hq : (!entry.query_succeeds || entry.status.dwCurrentState != SERVICE_STOPPED) = true := by
    rcases hbusy with h | h <;> simp [h]
  refine ⟨?_, ?_, ?_, ?_⟩
  · unfold uninstall
    simp only [hentry, hq]
    split_ifs <;> rfl
  · intro name
    unfold uninstall
    simp only [hentry, hq]
    split_ifs <;> simp
  · unfold uninstall
    simp only [hentry, hq]
    split_ifs <;> rfl
  · intro reg' name
    unfold uninstall
    cases hm : reg'.manager_opens with
    | false => simp
    | true =>
      cases he : reg'.entries app.title with
      | none => simp
      | some e =>
        cases ho : e.opens with
        | false => simp [ho]
        | true =>
          cases hqs : e.query_succeeds with
          | false => simp [ho, hqs]
          | true =>
            by_cases hst : e.status.dwCurrentState = SERVICE_STOPPED
            · intro _; exact ⟨rfl, e, rfl, ho, hqs, hst⟩
            · simp [ho, hqs, hst]

/-- Witness of C9: the entry `demo` is recorded as running. -/
theorem uninstall_refuses_unless_stopped_witness :
    (uninstall demo_app (demo_registry SERVICE_RUNNING)).1 = false ∧
    (∀ name, ApiCall.DeleteService name ∉
      (uninstall demo_app (demo_registry SERVICE_RUNNING)).2.2) :=
  have w := uninstall_refuses_unless_stopped demo_app (demo_registry SERVICE_RUNNING)
    ⟨true, true, ⟨SERVICE_WIN32_OWN_PROCESS, SERVICE_RUNNING, 0, 0, 0, 0, 0⟩, true⟩
    (by decide) (Or.inr (by decide))
  ⟨w.1, w.2.1⟩

/-- C10 fails on the code.  Stop is delivered while `run()` is blocked.  In the first
    schedule the handler passes the test of `app_` and publishes `StopPending`; then `run()`
    returns and `report_stopped` releases the application; then the handler reaches
    `app_->stop()` with the application released.  In the second schedule `run()` returns
    right after the test, and the handler dereferences the released application at
    `app_->stopping_timeout()` with no `StopPending` published at all. -/
theorem stop_handler_races_with_release :
    (interleave accepting_manager
        [Thread.control, Thread.control, Thread.entry, Thread.entry, Thread.control]
        (stop_delivered_in_run demo_app)).control = ControlAt.used_after_release ∧
    (interleave accepting_manager
        [Thread.control, Thread.control, Thread.entry, Thread.entry, Thread.control]
        (stop_delivered_in_run demo_app)).shared.log =
      [Event.publish ⟨SERVICE_WIN32_OWN_PROCESS, SERVICE_STOP_PENDING, 0, 0, 0, 1, 3000⟩ true,
       Event.release,
       Event.publish ⟨SERVICE_WIN32_OWN_PROCESS, SERVICE_STOPPED, 0, 0, 0, 0, 3000⟩ true] ∧
    (interleave accepting_manager
        [Thread.control, Thread.entry, Thread.entry, Thread.control]
        (stop_delivered_in_run demo_app)).control = ControlAt.used_after_release ∧
    (interleave accepting_manager
        [Thread.control, Thread.entry, Thread.entry, Thread.control]
        (stop_delivered_in_run demo_app)).shared.log =
      [Event.release,
       Event.publish ⟨SERVICE_WIN32_OWN_PROCESS, SERVICE_STOPPED, 0, 0, 0, 0, 5000⟩ true] := by
  decide

end servitor
